/-
Verification of the ResearchHub search-aggregation core.

Shallow embedding of the Python source:
  - app/services/search_router.py   (SearchOrchestrator and the three provider wrappers)
  - app/services/exa_service.py     (PerplexitySearchService: cache decorator, rate limiter, search)
  - app/services/serpapi_service.py (SerpAPISearchService.search)
  - app/api/v1/research.py          (build_fallback_search_results)
  - app/models/user.py              (User.can_search / User.increment_search_count)
  - app/utils/exceptions.py         (error taxonomy)
  - config/settings.py              (MAX_SEARCH_RESULTS, USER_TIERS)

Machine floats of the source are modelled as rationals; wall-clock readings
(time.time(), datetime.utcnow()) are explicit parameters; HTTP traffic is an
explicit oracle argument describing the upstream response.
-/
import Mathlib

/-! ## Python-semantics helpers -/

/-- Truthiness of an optional string, as Python evaluates `x or y` / `if x`:
`None` and the empty string are falsy. -/
def truthyS : Option String → Bool
  | none => false
  | some s => s ≠ ""

/-- Python `a or b` over optional strings: first truthy operand, else `b`. -/
def pyOrS (a b : Option String) : Option String :=
  if truthyS a then a else b

/-- Python `xs[:n]` list slicing, including negative `n` (counts from the end,
clamped at the empty list). -/
def pyTake (n : Int) (xs : List α) : List α :=
  if 0 ≤ n then xs.take n.toNat else xs.take ((xs.length : Int) + n).toNat

/-- Auxiliary walk for `pyTitle`: tracks whether the previous character was
alphabetic. -/
def pyTitleAux : Bool → List Char → List Char
  | _, [] => []
  | prevAlpha, c :: rest =>
    let c2 := if c.isAlpha then (if prevAlpha then c.toLower else c.toUpper) else c
    c2 :: pyTitleAux c.isAlpha rest

/-- Python `str.title()`: uppercase the first letter of each alphabetic run,
lowercase the rest. -/
def pyTitle (s : String) : String := ⟨pyTitleAux false s.data⟩

/-- Uppercase hexadecimal digit for a value below 16. -/
def hexUpper (n : Nat) : Char :=
  if n < 10 then Char.ofNat (48 + n) else Char.ofNat (55 + n)

/-- `urllib.parse.quote_plus` on a single UTF-8 byte: alphanumerics and
`-._~` pass through, a space becomes `+`, anything else is percent-encoded. -/
def quotePlusByte (b : Nat) : String :=
  if (48 ≤ b ∧ b ≤ 57) ∨ (65 ≤ b ∧ b ≤ 90) ∨ (97 ≤ b ∧ b ≤ 122)
      ∨ b = 45 ∨ b = 46 ∨ b = 95 ∨ b = 126 then
    String.singleton (Char.ofNat b)
  else if b = 32 then "+"
  else "%" ++ String.singleton (hexUpper (b / 16)) ++ String.singleton (hexUpper (b % 16))

/-- `urllib.parse.quote_plus` over the UTF-8 bytes of a string. -/
def quotePlus (s : String) : String :=
  s.toUTF8.toList.foldl (fun acc b => acc ++ quotePlusByte b.toNat) ""

/-! ## Data model (app/services dict shapes) -/

/-- One result item as the adapters and the fallback synthesizer build it
(`id/title/url/snippet/author/published_date/score/source` keys). -/
structure ProviderResult where
  rid : String
  title : String
  url : Option String
  snippet : String
  author : Option String
  published_date : Option String
  score : Option ℚ
  source : Option String
deriving DecidableEq, Repr

/-- The SearchOutcome-shaped payload dict every search path returns
(`query/answer/results/total_results/execution_time/search_type`, plus the
`fallback`/`fallback_reason` keys only the fallback builder sets). -/
structure SearchPayload where
  query : String
  answer : Option String
  results : List ProviderResult
  total_results : Nat
  execution_time : ℚ
  search_type : String
  fallback : Bool
  fallback_reason : Option String
deriving DecidableEq, Repr

/-- Error taxonomy of app/utils/exceptions.py as the search paths raise it.
`RateLimitError` and `ExternalAPIError` are sibling subclasses of
`ResearchHubException`; `otherError` stands for any unrelated exception. -/
inductive SearchError where
  | externalAPIError (msg : String)
  | rateLimitError (msg : String)
  | otherError (msg : String)
deriving DecidableEq, Repr

/-- One `{provider, message}` entry of the orchestrator `errors` list. -/
structure EngineError where
  provider : String
  message : String
deriving DecidableEq, Repr

/-! ## Rate limiter (PerplexitySearchService._check_rate_limit) -/

/-- The two mutable counter fields of a `PerplexitySearchService` instance. -/
structure RateState where
  request_count : Nat
  last_request_time : Option ℚ
deriving DecidableEq, Repr

/-- Python truthiness of the stored `last_request_time` (`None` and `0.0`
are falsy). -/
def truthyTime : Option ℚ → Bool
  | none => false
  | some t => t ≠ 0

/-- `PerplexitySearchService._check_rate_limit`: returns the instance state
after the call together with the raised `RateLimitError` message, if any.
The raise happens before the two trailing field assignments, so on a raise
the returned state is the state at the raise point. -/
def _check_rate_limit (st : RateState) (now : ℚ) (max_per_minute : Nat) :
    RateState × Option String :=
  let step : RateState × Option String :=
    if truthyTime st.last_request_time = true ∧ now - st.last_request_time.getD 0 < 60 then
      if max_per_minute ≤ st.request_count then
        (st, some "Perplexity rate limit exceeded. Please wait before retrying.")
      else (st, none)
    else ({ st with request_count := 0 }, none)
  match step with
  | (st2, some m) => (st2, some m)
  | (st2, none) =>
      ({ request_count := st2.request_count + 1, last_request_time := some now }, none)

/-- Fold a sequence of call instants through the rate limiter, starting from
a fresh instance (`request_count = 0`, `last_request_time = None`). -/
def rateLimitRun (times : List ℚ) : RateState :=
  times.foldl (fun st t => (_check_rate_limit st t 60).1) ⟨0, none⟩

/-! ## Quota guard (User.can_search / User.increment_search_count) -/

/-- A UTC calendar date, by ordinal; `datetime.date` comparisons are ordinal
comparisons. -/
structure PyDate where
  ordinal : Int
deriving DecidableEq, Repr

/-- The quota fields of a `User` row. `last_search_date` stores a datetime;
only its `.date()` part is ever compared, so it is modelled by its date. -/
structure QuotaState where
  searches_today : Int
  last_search_date : Option PyDate
deriving DecidableEq, Repr

/-- Per-tier limits from `config/settings.py` (`USER_TIERS`). -/
structure TierLimits where
  daily_searches : Int
deriving DecidableEq, Repr

/-- `USER_TIERS` lookup for the three configured tiers. -/
def USER_TIERS : String → Option TierLimits
  | "free" => some ⟨10⟩
  | "pro" => some ⟨100⟩
  | "enterprise" => some ⟨-1⟩
  | _ => none

/-- `config/settings.py`: global ceiling on `num_results`. -/
def MAX_SEARCH_RESULTS : Int := 100

/-- `User.can_search`: given the tier daily limit and the current UTC date,
returns the user state after the call and the boolean verdict. The source
resets `searches_today`/`last_search_date` in place when the stored date is
absent or precedes today, then compares. -/
def User.can_search (st : QuotaState) (daily_limit : Int) (today : PyDate) :
    QuotaState × Bool :=
  if daily_limit = -1 then (st, true)
  else
    let st2 :=
      match st.last_search_date with
      | none => ({ searches_today := 0, last_search_date := some today } : QuotaState)
      | some d =>
          if d.ordinal < today.ordinal then
            ({ searches_today := 0, last_search_date := some today } : QuotaState)
          else st
    (st2, decide (st2.searches_today < daily_limit))

/-- `User.increment_search_count`: day-rollover reset, then increment and
stamp the date. -/
def User.increment_search_count (st : QuotaState) (today : PyDate) : QuotaState :=
  let base :=
    match st.last_search_date with
    | none => 0
    | some d => if d.ordinal < today.ordinal then 0 else st.searches_today
  { searches_today := base + 1, last_search_date := some today }

/-! ## Response cache (cache_result decorator over CacheService) -/

/-- Cache-key material hashed by `_generate_cache_key`: the `perplexity:`
provider prefix plus the wrapped function name and its call arguments
(query, requested count, search type, as the provider passes them). The md5
digest itself is modelled by keeping the pre-image. -/
structure CacheKey where
  provider : String
  func : String
  query : String
  num_results : Int
  search_type : String
deriving DecidableEq, Repr

/-- The Redis-backed store, as a key/value association list; `set` prepends,
`get` finds the most recent binding. TTL bookkeeping carries no claim here. -/
abbrev Cache := List (CacheKey × SearchPayload)

/-- `CacheService.get`. -/
def cacheGet (c : Cache) (k : CacheKey) : Option SearchPayload :=
  (c.find? (fun e => e.1 = k)).map (·.2)

/-- `CacheService.set`. -/
def cacheSet (c : Cache) (k : CacheKey) (v : SearchPayload) : Cache :=
  (k, v) :: c

/-! ## Perplexity adapter (PerplexitySearchService.search) -/

/-- Service-instance state of `PerplexitySearchService`: stripped key,
optional cache handle, configuration, and the mutable rate-window fields. -/
structure PerplexitySearchService where
  api_key : String
  cache : Option Cache
  base_url : String
  default_model : String
  timeout : Int
  request_count : Nat
  last_request_time : Option ℚ
deriving Repr

/-- One JSON citation entry: either a dict (with the keys the mapper reads)
or any non-dict value, which the mapping loop skips. -/
inductive CitationItem where
  | dict (cid uuid title url snippet content text author published_at date : Option String)
      (score : Option ℚ) (src : Option String)
  | nondict
deriving DecidableEq, Repr

/-- Parsed upstream response body: the citation list `_parse_citations`
extracts and the `choices[0].message.content` answer. -/
structure PerplexityBody where
  citations : List CitationItem
  answer : Option String
deriving DecidableEq, Repr

/-- Upstream HTTP oracle: timeout, connection failure, or a status code with
an optionally JSON-parsable body. -/
inductive PerplexityHttp where
  | timeout
  | connError
  | resp (status : Nat) (body : Option PerplexityBody)
deriving DecidableEq, Repr

/-- The `for index, citation in enumerate(citations[:top_k])` mapping loop:
non-dict entries are skipped but still advance the index. -/
def buildCitationResults : Nat → List CitationItem → List ProviderResult
  | _, [] => []
  | i, CitationItem.nondict :: rest => buildCitationResults (i + 1) rest
  | i, CitationItem.dict cid uuid title url snippet content text author published_at date score src :: rest =>
      { rid := (pyOrS (pyOrS cid uuid) (some s!"citation-{i}")).getD ""
        title := (pyOrS (pyOrS title url) (some s!"Result {i + 1}")).getD ""
        url := url
        snippet := (pyOrS (pyOrS (pyOrS snippet content) text) (some "")).getD ""
        author := author
        published_date := pyOrS published_at date
        score := score
        source := src } :: buildCitationResults (i + 1) rest

/-- The body of `PerplexitySearchService.search` inside the cache wrapper:
validation, rate-limit check, one network call (the middle component counts
them), response classification, citation mapping. `now` models the
`time.time()` reading and `elapsed` the measured execution time. -/
def PerplexitySearchService.searchInner (svc : PerplexitySearchService)
    (query : String) (num_results : Int) (search_type : String)
    (now elapsed : ℚ) (http : PerplexityHttp) :
    PerplexitySearchService × Nat × Except SearchError SearchPayload :=
  if query = "" then
    (svc, 0, Except.error (SearchError.externalAPIError "Query is required for search."))
  else if svc.api_key = "" then
    (svc, 0, Except.error (SearchError.externalAPIError "Perplexity API key not configured."))
  else
    match _check_rate_limit ⟨svc.request_count, svc.last_request_time⟩ now 60 with
    | (st, some m) =>
        ({ svc with request_count := st.request_count, last_request_time := st.last_request_time },
          0, Except.error (SearchError.rateLimitError m))
    | (st, none) =>
        let svc2 := { svc with request_count := st.request_count, last_request_time := st.last_request_time }
        let top_k : Int := max 1 (min num_results 20)
        match http with
        | PerplexityHttp.timeout =>
            (svc2, 1, Except.error (SearchError.externalAPIError
              "Perplexity timed out while processing the request."))
        | PerplexityHttp.connError =>
            (svc2, 1, Except.error (SearchError.externalAPIError
              "Unable to reach Perplexity. Check your network connection."))
        | PerplexityHttp.resp status body =>
            if status = 429 then
              (svc2, 1, Except.error (SearchError.rateLimitError
                "Perplexity rate limit reached. Please retry shortly."))
            else if status = 401 then
              (svc2, 1, Except.error (SearchError.externalAPIError
                "Perplexity rejected the API key. Double-check the value in Settings and try again."))
            else if 400 ≤ status then
              (svc2, 1, Except.error (SearchError.externalAPIError
                "Perplexity could not complete the search request."))
            else
              match body with
              | none =>
                  (svc2, 1, Except.error (SearchError.externalAPIError
                    "Perplexity returned an invalid response."))
              | some b =>
                  let results := buildCitationResults 0 (pyTake top_k b.citations)
                  (svc2, 1, Except.ok
                    { query := query
                      answer := b.answer
                      results := results
                      total_results := results.length
                      execution_time := elapsed
                      search_type := search_type
                      fallback := false
                      fallback_reason := none })

/-- `PerplexitySearchService.search` including the `@cache_result(ttl=900)`
wrapper: with a configured cache, a hit returns the stored payload with no
network call and no state change; a miss runs the inner body and stores a
successful result. -/
def PerplexitySearchService.search (svc : PerplexitySearchService)
    (query : String) (num_results : Int) (search_type : String)
    (now elapsed : ℚ) (http : PerplexityHttp) :
    PerplexitySearchService × Nat × Except SearchError SearchPayload :=
  match svc.cache with
  | none => svc.searchInner query num_results search_type now elapsed http
  | some c =>
      match cacheGet c ⟨"perplexity", "search", query, num_results, search_type⟩ with
      | some v => (svc, 0, Except.ok v)
      | none =>
          match svc.searchInner query num_results search_type now elapsed http with
          | (svc2, n, Except.ok payload) =>
              ({ svc2 with
                  cache := some (cacheSet c
                    ⟨"perplexity", "search", query, num_results, search_type⟩ payload) },
                n, Except.ok payload)
          | (svc2, n, Except.error e) => (svc2, n, Except.error e)

/-! ## SerpAPI adapter (SerpAPISearchService.search) -/

/-- `SerpAPISearchService` instance state: no cache handle and no rate
window exist on this service. -/
structure SerpAPISearchService where
  api_key : String
  engine : String
  timeout : Int
deriving DecidableEq, Repr

/-- One `organic_results` entry, with the keys the mapper reads. -/
structure SerpOrganic where
  position : Option Int
  title : Option String
  link : Option String
  snippet : Option String
  excerpt : Option String
  src : Option String
  date : Option String
  score : Option ℚ
deriving DecidableEq, Repr

/-- Parsed SerpAPI response body. -/
structure SerpBody where
  organic_results : List SerpOrganic
  answer_box_answer : Option String
  total_time_taken : ℚ
deriving DecidableEq, Repr

/-- Upstream HTTP oracle for SerpAPI. -/
inductive SerpHttp where
  | timeout
  | connError
  | resp (status : Nat) (body : Option SerpBody)
deriving DecidableEq, Repr

/-- Python `result.get('position') or f'serpapi-{idx}'` (`0` is falsy). -/
def serpResultId (position : Option Int) (idx : Nat) : String :=
  match position with
  | some p => if p ≠ 0 then toString p else s!"serpapi-{idx}"
  | none => s!"serpapi-{idx}"

/-- Python `result.get('score') or max(0.3, 0.9 - idx * 0.1)` (`0.0` falsy). -/
def serpResultScore (score : Option ℚ) (idx : Nat) : ℚ :=
  match score with
  | some q => if q ≠ 0 then q else max (3/10) (9/10 - (idx : ℚ) * (1/10))
  | none => max (3/10) (9/10 - (idx : ℚ) * (1/10))

/-- The `organic_results[:num_results]` mapping loop. -/
def buildSerpResults : Nat → List SerpOrganic → List ProviderResult
  | _, [] => []
  | idx, r :: rest =>
      { rid := serpResultId r.position idx
        title := (pyOrS (pyOrS r.title r.link) (some s!"Result {idx + 1}")).getD ""
        url := r.link
        snippet := (pyOrS (pyOrS r.snippet r.excerpt) (some "")).getD ""
        author := r.src
        published_date := r.date
        score := some (serpResultScore r.score idx)
        source := some "SerpAPI" } :: buildSerpResults (idx + 1) rest

/-- `SerpAPISearchService.search`: availability check, one network call
(counted by the first component), response classification, organic-results
mapping. The service consults no cache and keeps no rate window. -/
def SerpAPISearchService.search (svc : SerpAPISearchService)
    (query : String) (num_results : Int) (search_type : String)
    (http : SerpHttp) : Nat × Except SearchError SearchPayload :=
  if svc.api_key = "" then
    (0, Except.error (SearchError.externalAPIError "SerpAPI key not configured."))
  else
    match http with
    | SerpHttp.timeout =>
        (1, Except.error (SearchError.externalAPIError "SerpAPI request timed out."))
    | SerpHttp.connError =>
        (1, Except.error (SearchError.externalAPIError "Unable to reach SerpAPI."))
    | SerpHttp.resp status body =>
        if status = 429 then
          (1, Except.error (SearchError.rateLimitError
            "SerpAPI rate limit reached. Please retry shortly."))
        else if status = 401 then
          (1, Except.error (SearchError.externalAPIError "SerpAPI rejected the API key."))
        else if 400 ≤ status then
          (1, Except.error (SearchError.externalAPIError
            "SerpAPI could not complete the search request."))
        else
          match body with
          | none =>
              (1, Except.error (SearchError.externalAPIError
                "SerpAPI returned an invalid response."))
          | some b =>
              let items := buildSerpResults 0 (pyTake num_results b.organic_results)
              (1, Except.ok
                { query := query
                  answer := b.answer_box_answer
                  results := items
                  total_results := items.length
                  execution_time := b.total_time_taken
                  search_type := search_type
                  fallback := false
                  fallback_reason := none })

/-! ## OpenAI suggestion adapter (OpenAISearchProvider.search) -/

/-- Score of the idx-th OpenAI-generated lead: `max(0.45, 0.85 - idx*0.08)`. -/
def openAIScore (idx : Nat) : ℚ := max (45/100) (85/100 - (idx : ℚ) * (8/100))

/-- The suggestion-to-result mapping loop of `OpenAISearchProvider.search`. -/
def buildOpenAIResults : Nat → List String → List ProviderResult
  | _, [] => []
  | idx, s :: rest =>
      { rid := s!"openai-{idx}"
        title := s
        url := some ("https://www.google.com/search?q=" ++ s.replace " " "+")
        snippet := "OpenAI generated research lead: " ++ s
        author := some "OpenAI Assistant"
        published_date := none
        score := some (openAIScore idx)
        source := some "OpenAI generated lead" } :: buildOpenAIResults (idx + 1) rest

/-- `OpenAISearchProvider.search`. `openai_key` is the `AIService` field the
availability probe reads; `suggestions` is the oracle for what
`suggest_related_queries` returns (that helper swallows its own upstream
errors and returns a list). The first component counts upstream network
calls: the suggestion request is issued whenever the key is configured.
The service holds no response cache. -/
def OpenAISearchProvider.search (openai_key : Option String)
    (suggestions : List String) (query : String) (num_results : Int)
    (search_type : String) : Nat × Except SearchError SearchPayload :=
  if truthyS openai_key = false then
    (0, Except.error (SearchError.externalAPIError "OpenAI integration is not configured."))
  else if suggestions = [] then
    (1, Except.error (SearchError.externalAPIError "OpenAI did not return related queries."))
  else
    let results := buildOpenAIResults 0 (pyTake num_results suggestions)
    (1, Except.ok
      { query := query
        answer := none
        results := results
        total_results := results.length
        execution_time := 0
        search_type := search_type
        fallback := false
        fallback_reason := none })

/-! ## Fallback synthesizer (build_fallback_search_results) -/

/-- `build_fallback_search_results` from app/api/v1/research.py.
`isoMinusDays p` models `(issued_at - timedelta(days=p)).isoformat() + 'Z'`
for the `datetime.utcnow()` reading of this call. -/
def build_fallback_search_results (query : String) (num_results : Int)
    (reason : String) (isoMinusDays : Nat → String) : SearchPayload :=
  let max_items := (max 1 (min num_results 5)).toNat
  let results := (List.range max_items).map (fun (index : Nat) =>
    let position := index + 1
    ({ rid := s!"fallback-{position}"
       title := s!"Insight {position}: {pyTitle query} snapshot"
       url := some s!"https://researchhub.local/mock/{quotePlus query}/{position}"
       snippet := s!"Hypothetical finding #{position} generated while live search connectivity is pending. Replace once validation succeeds for \"{query}\"."
       author := some "ResearchHub Preview Engine"
       published_date := some (isoMinusDays position)
       score := some (max (3/10 : ℚ) (1 - (index : ℚ) * (12/100)))
       source := some "Offline preview" } : ProviderResult))
  { query := query
    answer := some s!"Preview insights for \"{query}\" while we finalise live integration validation."
    results := results
    total_results := results.length
    execution_time := 1/100
    search_type := "offline-fallback"
    fallback := true
    fallback_reason := some reason }

/-! ## Search orchestrator (SearchOrchestrator.search) -/

/-- A provider as the orchestrator sees it within one call: its `name`, the
`available()` probe, and the outcome of invoking `search()` with this call
arguments (a payload, or the exception it raises). -/
structure Provider where
  name : String
  available : Bool
  searchResult : Except SearchError SearchPayload

/-- The tuple `SearchOrchestrator.search` returns:
`(result, engine_used, attempts, errors, fallback_flag)`. -/
structure OrchResult where
  payload : SearchPayload
  engine_used : String
  attempted_engines : List String
  engine_errors : List EngineError
  is_fallback : Bool

/-- Python `fallback_reason or "All providers unavailable"`. -/
def orchFallbackReason (fallback_reason : Option String) : String :=
  (pyOrS fallback_reason (some "All providers unavailable")).getD ""

/-- The provider loop of `SearchOrchestrator.search`, with the `attempts`
and `errors` accumulators explicit. Unavailable providers are skipped; a
success returns at once; an `ExternalAPIError` is recorded and the loop
continues; any other exception (in particular `RateLimitError`) propagates.
After exhaustion, fallback applies when enabled and configured. -/
def orchLoop (fallback_enabled : Bool)
    (fallback_builder : Option (String → Int → String → SearchPayload))
    (query : String) (num_results : Int) (fallback_reason : Option String) :
    List Provider → List String → List EngineError → Except SearchError OrchResult
  | [], attempts, errors =>
      match fallback_enabled, fallback_builder with
      | true, some builder =>
          Except.ok
            { payload := builder query num_results (orchFallbackReason fallback_reason)
              engine_used := "offline-fallback"
              attempted_engines := attempts
              engine_errors := errors
              is_fallback := true }
      | _, _ => Except.error (SearchError.externalAPIError "All search providers failed.")
  | p :: rest, attempts, errors =>
      if p.available = false then
        orchLoop fallback_enabled fallback_builder query num_results fallback_reason
          rest attempts errors
      else
        match p.searchResult with
        | Except.ok payload =>
            Except.ok
              { payload := payload
                engine_used := p.name
                attempted_engines := attempts ++ [p.name]
                engine_errors := errors
                is_fallback := false }
        | Except.error (SearchError.externalAPIError m) =>
            orchLoop fallback_enabled fallback_builder query num_results fallback_reason
              rest (attempts ++ [p.name]) (errors ++ [⟨p.name, m⟩])
        | Except.error (SearchError.rateLimitError m) =>
            Except.error (SearchError.rateLimitError m)
        | Except.error (SearchError.otherError m) =>
            Except.error (SearchError.otherError m)

/-- The orchestrator object of search_router.py. -/
structure SearchOrchestrator where
  providers : List Provider
  fallback_enabled : Bool
  fallback_builder : Option (String → Int → String → SearchPayload)

/-- `SearchOrchestrator.search`. -/
def SearchOrchestrator.search (o : SearchOrchestrator) (query : String)
    (num_results : Int) (fallback_reason : Option String) :
    Except SearchError OrchResult :=
  orchLoop o.fallback_enabled o.fallback_builder query num_results fallback_reason
    o.providers [] []

/-! ## Shared concrete fixtures for witnesses and counterexamples -/

/-- A concrete successful payload for fixture providers. -/
def demoPayload : SearchPayload :=
  { query := "climate policy", answer := none, results := [], total_results := 0,
    execution_time := 0, search_type := "auto", fallback := false, fallback_reason := none }

/-- Fixture: an available provider whose search succeeds. -/
def demoOkProvider : Provider :=
  { name := "openai", available := true, searchResult := Except.ok demoPayload }

/-- Fixture: an available provider failing with a classified ExternalAPIError. -/
def demoFailProvider : Provider :=
  { name := "perplexity", available := true,
    searchResult := Except.error
      (SearchError.externalAPIError "Perplexity could not complete the search request.") }

/-- Fixture: an unavailable provider. -/
def demoUnavailProvider : Provider :=
  { name := "serpapi", available := false,
    searchResult := Except.error
      (SearchError.externalAPIError "SerpAPI integration is not configured.") }

/-- Fixture: an available provider raising RateLimitError. -/
def demoRateLimitedProvider : Provider :=
  { name := "perplexity", available := true,
    searchResult := Except.error
      (SearchError.rateLimitError "Perplexity rate limit reached. Please retry shortly.") }

/-! ## C3: first provider available and succeeding -/

/-- C3: if the first provider in the ordered list is available and its search
succeeds, the orchestrator returns immediately with `engine_used` equal to
that provider name, `attempted_engines` equal to the one-element list of that
name, no recorded errors, and `is_fallback = false`, regardless of the later
providers. -/
theorem claim_C3 (o : SearchOrchestrator) (p : Provider) (rest : List Provider)
    (payload : SearchPayload) (query : String) (n : Int) (fr : Option String)
    (hp : o.providers = p :: rest) (hav : p.available = true)
    (hok : p.searchResult = Except.ok payload) :
    o.search query n fr = Except.ok
      { payload := payload, engine_used := p.name, attempted_engines := [p.name],
        engine_errors := [], is_fallback := false } := by
  simp [SearchOrchestrator.search, hp, orchLoop, hav, hok]

/-- Witness for C3 at a concrete two-provider orchestrator. -/
theorem claim_C3_witness :
    SearchOrchestrator.search
      { providers := [demoOkProvider, demoUnavailProvider], fallback_enabled := true,
        fallback_builder := none } "climate policy" 5 none =
    Except.ok
      { payload := demoPayload, engine_used := "openai", attempted_engines := ["openai"],
        engine_errors := [], is_fallback := false } :=
  claim_C3 _ demoOkProvider [demoUnavailProvider] demoPayload "climate policy" 5 none
    rfl rfl rfl

/-! ## C4: skip unavailable, record classified failure, succeed later -/

/-- C4: with providers `[A, B, C]` where A is unavailable, B is available but
fails with a classified external-API error, and C is available and succeeds,
the outcome has `attempted_engines = [B, C]` (A is skipped without counting
as an attempt), exactly one error entry and it is for B, and
`engine_used = C`. -/
theorem claim_C4 (o : SearchOrchestrator) (a b c : Provider) (m : String)
    (payload : SearchPayload) (query : String) (n : Int) (fr : Option String)
    (hp : o.providers = [a, b, c]) (ha : a.available = false)
    (hb : b.available = true)
    (hbf : b.searchResult = Except.error (SearchError.externalAPIError m))
    (hc : c.available = true) (hcs : c.searchResult = Except.ok payload) :
    o.search query n fr = Except.ok
      { payload := payload, engine_used := c.name,
        attempted_engines := [b.name, c.name],
        engine_errors := [{ provider := b.name, message := m }],
        is_fallback := false } := by
  simp [SearchOrchestrator.search, hp, orchLoop, ha, hb, hbf, hc, hcs]

/-- Witness for C4 at a concrete three-provider orchestrator. -/
theorem claim_C4_witness :
    SearchOrchestrator.search
      { providers := [demoUnavailProvider, demoFailProvider, demoOkProvider],
        fallback_enabled := true, fallback_builder := none } "climate policy" 5 none =
    Except.ok
      { payload := demoPayload, engine_used := "openai",
        attempted_engines := ["perplexity", "openai"],
        engine_errors := [{ provider := "perplexity",
                            message := "Perplexity could not complete the search request." }],
        is_fallback := false } :=
  claim_C4 _ demoUnavailProvider demoFailProvider demoOkProvider
    "Perplexity could not complete the search request." demoPayload
    "climate policy" 5 none rfl rfl rfl rfl rfl rfl

/-! ## C9: bookkeeping invariant between errors, attempts and engine_used -/

/-- Loop invariant: if the error entries recorded so far name exactly the
attempted providers in order, every successful outcome of the loop keeps the
claimed relation between `engine_errors`, `attempted_engines` and
`engine_used`. -/
theorem orchLoop_inv (fe : Bool)
    (fb : Option (String → Int → String → SearchPayload)) (q : String) (n : Int)
    (fr : Option String) :
    ∀ (ps : List Provider) (attempts : List String) (errors : List EngineError),
      errors.map (fun e => e.provider) = attempts →
      ∀ out, orchLoop fe fb q n fr ps attempts errors = Except.ok out →
        (out.is_fallback = false →
          out.engine_errors.map (fun e => e.provider) ++ [out.engine_used] =
            out.attempted_engines) ∧
        (out.is_fallback = true →
          out.engine_errors.map (fun e => e.provider) = out.attempted_engines) := by
  intro ps
  induction ps with
  | nil =>
      intro attempts errors hmap out hout
      cases fe with
      | false => simp [orchLoop] at hout
      | true =>
          cases fb with
          | none => simp [orchLoop] at hout
          | some builder =>
              simp [orchLoop] at hout
              subst hout
              refine ⟨fun hfb => ?_, fun _ => hmap⟩
              simp at hfb
  | cons p rest ih =>
      intro attempts errors hmap out hout
      cases hav : p.available with
      | false =>
          rw [orchLoop, if_pos (by simp [hav])] at hout
          exact ih attempts errors hmap out hout
      | true =>
          rw [orchLoop, if_neg (by simp [hav])] at hout
          cases hres : p.searchResult with
          | ok payload =>
              rw [hres] at hout
              simp at hout
              subst hout
              refine ⟨fun _ => ?_, fun hfb => ?_⟩
              · simp [hmap]
              · simp at hfb
          | error e =>
              cases e with
              | externalAPIError m =>
                  rw [hres] at hout
                  exact ih (attempts ++ [p.name]) (errors ++ [⟨p.name, m⟩])
                    (by simp [hmap]) out hout
              | rateLimitError m => rw [hres] at hout; simp at hout
              | otherError m => rw [hres] at hout; simp at hout

/-- C9: for every outcome the orchestrator returns, the providers named by
`engine_errors` are attempted providers in the same relative order; on a
non-fallback return `engine_used` is the last attempted engine and
`engine_errors` lists exactly the attempted providers before it, and on a
fallback return `engine_errors` lists exactly the attempted providers. -/
theorem claim_C9 (o : SearchOrchestrator) (query : String) (n : Int)
    (fr : Option String) (out : OrchResult)
    (hout : o.search query n fr = Except.ok out) :
    (out.is_fallback = false →
      out.engine_errors.map (fun e => e.provider) ++ [out.engine_used] =
        out.attempted_engines) ∧
    (out.is_fallback = true →
      out.engine_errors.map (fun e => e.provider) = out.attempted_engines) :=
  orchLoop_inv o.fallback_enabled o.fallback_builder query n fr o.providers [] []
    rfl out hout

/-- Concrete outcome used by the C9 witness. -/
def demoOut : OrchResult :=
  { payload := demoPayload, engine_used := "openai",
    attempted_engines := ["perplexity", "openai"],
    engine_errors := [{ provider := "perplexity",
                        message := "Perplexity could not complete the search request." }],
    is_fallback := false }

/-- Witness for C9 at a concrete orchestrator run. -/
theorem claim_C9_witness :
    (demoOut.is_fallback = false →
      demoOut.engine_errors.map (fun e => e.provider) ++ [demoOut.engine_used] =
        demoOut.attempted_engines) ∧
    (demoOut.is_fallback = true →
      demoOut.engine_errors.map (fun e => e.provider) = demoOut.attempted_engines) :=
  claim_C9
    { providers := [demoFailProvider, demoOkProvider], fallback_enabled := true,
      fallback_builder := none } "climate policy" 5 none demoOut rfl

/-! ## C1: rate-limited failures do not cascade -/

/-- C1 counterexample: with an available provider raising `RateLimitError`
followed by an available, succeeding provider, and fallback enabled and
configured, the orchestrator neither records the failure in `engine_errors`
nor continues: the `RateLimitError` propagates out of
`SearchOrchestrator.search` (the orchestrator only catches
`ExternalAPIError`, of which `RateLimitError` is not a subclass). -/
theorem claim_C1_counterexample :
    SearchOrchestrator.search
      { providers := [demoRateLimitedProvider, demoOkProvider], fallback_enabled := true,
        fallback_builder :=
          some (fun q n r => build_fallback_search_results q n r (fun _ => "")) }
      "climate policy" 5 none =
    Except.error
      (SearchError.rateLimitError "Perplexity rate limit reached. Please retry shortly.") :=
  rfl

/-- Propagation lemma: once the loop reaches an available provider raising
`RateLimitError` (all earlier providers being skipped or failing with
classified `ExternalAPIError`), the error escapes the loop. -/
theorem orchLoop_ratelimit (fe : Bool)
    (fb : Option (String → Int → String → SearchPayload)) (q : String) (n : Int)
    (fr : Option String) (msg : String) (p : Provider) (rest : List Provider)
    (hav : p.available = true)
    (hrl : p.searchResult = Except.error (SearchError.rateLimitError msg)) :
    ∀ (pre : List Provider) (attempts : List String) (errors : List EngineError),
      (∀ q0 ∈ pre, q0.available = false ∨
        ∃ m, q0.searchResult = Except.error (SearchError.externalAPIError m)) →
      orchLoop fe fb q n fr (pre ++ p :: rest) attempts errors =
        Except.error (SearchError.rateLimitError msg) := by
  intro pre
  induction pre with
  | nil =>
      intro attempts errors _
      simp [orchLoop, hav, hrl]
  | cons q0 pre ih =>
      intro attempts errors hpre
      by_cases hq0 : q0.available = false
      · rw [List.cons_append, orchLoop, if_pos (by simp [hq0])]
        exact ih attempts errors (fun x hx => hpre x (by simp [hx]))
      · have hq0t : q0.available = true := by
          cases h : q0.available
          · exact absurd h hq0
          · rfl
        rcases hpre q0 (by simp) with h | ⟨m, h⟩
        · exact absurd h hq0
        · rw [List.cons_append, orchLoop, if_neg (by simp [hq0t]), h]
          exact ih (attempts ++ [q0.name]) (errors ++ [⟨q0.name, m⟩])
            (fun x hx => hpre x (by simp [hx]))

/-- C1 as amended: a rate-limited failure from an available provider does
NOT cascade. When the orchestrator reaches an available provider whose
search raises `RateLimitError` (whether from the local limiter or an
upstream 429), the exception propagates past the orchestrator boundary
unrecorded — no `{provider, message}` entry is appended for it, later
providers are not tried, and fallback does not engage; only
`ExternalAPIError`-classified failures are recovered locally and recorded.
(The API endpoint, outside the orchestrator, maps it to an HTTP 429.) -/
theorem claim_C1_amended (o : SearchOrchestrator) (pre : List Provider)
    (p : Provider) (rest : List Provider) (query : String) (n : Int)
    (fr : Option String) (msg : String)
    (hp : o.providers = pre ++ p :: rest)
    (hpre : ∀ q0 ∈ pre, q0.available = false ∨
      ∃ m, q0.searchResult = Except.error (SearchError.externalAPIError m))
    (hav : p.available = true)
    (hrl : p.searchResult = Except.error (SearchError.rateLimitError msg)) :
    o.search query n fr = Except.error (SearchError.rateLimitError msg) := by
  rw [SearchOrchestrator.search, hp]
  exact orchLoop_ratelimit o.fallback_enabled o.fallback_builder query n fr msg p rest
    hav hrl pre [] [] hpre

/-- Witness for the amended C1 at a concrete four-provider orchestrator. -/
theorem claim_C1_amended_witness :
    SearchOrchestrator.search
      { providers :=
          [demoUnavailProvider, demoFailProvider, demoRateLimitedProvider, demoOkProvider],
        fallback_enabled := true, fallback_builder := none } "climate policy" 5 none =
    Except.error
      (SearchError.rateLimitError "Perplexity rate limit reached. Please retry shortly.") :=
  claim_C1_amended _ [demoUnavailProvider, demoFailProvider] demoRateLimitedProvider
    [demoOkProvider] "climate policy" 5 none
    "Perplexity rate limit reached. Please retry shortly." rfl
    (by
      intro q0 hq0
      simp only [List.mem_cons, List.not_mem_nil, or_false] at hq0
      rcases hq0 with h | h
      · subst h; left; rfl
      · subst h; right; exact ⟨_, rfl⟩)
    rfl rfl

/-! ## C6: the rate window is anchored at the last request, not the first -/

/-- C6 counterexample: calls at t = 1, 51, 101 from a fresh limiter. More
than 60 seconds separate the third call from the first call of the window
(t = 1), yet the counter reaches 3 instead of restarting: each gap is under
60 seconds, so no reset ever fires. -/
theorem claim_C6_counterexample :
    (rateLimitRun [1, 51, 101]).request_count = 3 ∧
    ¬((rateLimitRun [1, 51, 101]).request_count = 1) ∧
    (60 : ℚ) < 101 - 1 := by
  norm_num [rateLimitRun, _check_rate_limit, truthyTime]

/-- C6 as amended: the window is anchored at the most recent request.
`request_count` resets to 0 (the arriving call then counting as 1) exactly
when the stored `last_request_time` is absent/zero or at least 60 seconds
old; while consecutive calls stay less than 60 seconds apart the counter
keeps growing, regardless of how long ago the window's first call was. -/
theorem claim_C6_amended (st : RateState) (now : ℚ) (m : Nat) :
    (truthyTime st.last_request_time = true →
      now - st.last_request_time.getD 0 < 60 →
      st.request_count < m →
      _check_rate_limit st now m = (⟨st.request_count + 1, some now⟩, none)) ∧
    (truthyTime st.last_request_time = true →
      now - st.last_request_time.getD 0 < 60 →
      m ≤ st.request_count →
      _check_rate_limit st now m =
        (st, some "Perplexity rate limit exceeded. Please wait before retrying.")) ∧
    (¬(truthyTime st.last_request_time = true ∧
        now - st.last_request_time.getD 0 < 60) →
      _check_rate_limit st now m = (⟨1, some now⟩, none)) := by
  refine ⟨fun h1 h2 h3 => ?_, fun h1 h2 h3 => ?_, fun h => ?_⟩
  · rw [_check_rate_limit, if_pos ⟨h1, h2⟩, if_neg (by omega)]
  · rw [_check_rate_limit, if_pos ⟨h1, h2⟩, if_pos h3]
  · rw [_check_rate_limit, if_neg h]

/-- Witness for the amended C6: an in-window call increments without reset. -/
theorem claim_C6_amended_witness :
    _check_rate_limit ⟨2, some 10⟩ 30 60 = (⟨3, some 30⟩, none) :=
  (claim_C6_amended ⟨2, some 10⟩ 30 60).1 (by norm_num [truthyTime])
    (by norm_num) (by decide)

/-! ## C7: the quota check mutates on rollover -/

/-- C7 counterexample: with 5 searches recorded yesterday and a limit of 10,
`User.can_search` does not leave the quota fields unchanged — it zeroes
`searches_today` and moves `last_search_date` to today. -/
theorem claim_C7_counterexample :
    ¬((User.can_search ⟨5, some ⟨738000⟩⟩ 10 ⟨738001⟩).1 = ⟨5, some ⟨738000⟩⟩) ∧
    (User.can_search ⟨5, some ⟨738000⟩⟩ 10 ⟨738001⟩).1 = ⟨0, some ⟨738001⟩⟩ := by
  decide

/-- C7 as amended: `User.can_search` is read-only only when no day rollover
applies. On an unlimited tier, or when the stored date is on/after today's
UTC date, the quota fields are unchanged and the verdict compares the stored
count; when the stored date is absent or precedes today, the check eagerly
resets the in-memory fields (`searches_today := 0`,
`last_search_date := today`) — it issues no persistence call itself, but the
reset is not merely "for the comparison". -/
theorem claim_C7_amended (st : QuotaState) (daily_limit : Int) (today : PyDate) :
    (daily_limit = -1 → User.can_search st daily_limit today = (st, true)) ∧
    (daily_limit ≠ -1 → ∀ d, st.last_search_date = some d →
      ¬(d.ordinal < today.ordinal) →
      User.can_search st daily_limit today =
        (st, decide (st.searches_today < daily_limit))) ∧
    (daily_limit ≠ -1 →
      (st.last_search_date = none ∨
        ∃ d, st.last_search_date = some d ∧ d.ordinal < today.ordinal) →
      User.can_search st daily_limit today =
        (⟨0, some today⟩, decide ((0 : Int) < daily_limit))) := by
  refine ⟨fun h => ?_, fun h d hd hlt => ?_, fun h hroll => ?_⟩
  · rw [User.can_search, if_pos h]
  · simp only [User.can_search, if_neg h, hd, if_neg hlt]
  · rcases hroll with hnone | ⟨d, hd, hlt⟩
    · simp only [User.can_search, if_neg h, hnone]
    · simp only [User.can_search, if_neg h, hd, if_pos hlt]

/-- Witness for the amended C7: same-day check leaves the state unchanged. -/
theorem claim_C7_amended_witness :
    User.can_search ⟨3, some ⟨738001⟩⟩ 10 ⟨738001⟩ =
      (⟨3, some ⟨738001⟩⟩, decide ((3 : Int) < 10)) :=
  (claim_C7_amended ⟨3, some ⟨738001⟩⟩ 10 ⟨738001⟩).2.1 (by decide) ⟨738001⟩ rfl
    (by decide)

/-! ## C10: a rejected rate-limited call leaves the limiter state unchanged -/

/-- C10: whenever `_check_rate_limit` raises its rate-limited error, neither
`request_count` nor `last_request_time` is updated: the raise precedes both
trailing assignments, so a rejected call consumes no budget and does not
extend the window. -/
theorem claim_C10 (st : RateState) (now : ℚ) (m : Nat) (e : String)
    (h : (_check_rate_limit st now m).2 = some e) :
    (_check_rate_limit st now m).1 = st := by
  by_cases h1 : truthyTime st.last_request_time = true ∧
      now - st.last_request_time.getD 0 < 60
  · by_cases h2 : m ≤ st.request_count
    · simp only [_check_rate_limit, if_pos h1, if_pos h2]
    · simp only [_check_rate_limit, if_pos h1, if_neg h2] at h
      exact Option.noConfusion h
  · simp only [_check_rate_limit, if_neg h1] at h
    exact Option.noConfusion h

/-- Witness for C10: a saturated window rejects the call and keeps both
fields. -/
theorem claim_C10_witness :
    (_check_rate_limit ⟨60, some 10⟩ 20 60).1 = ⟨60, some 10⟩ :=
  claim_C10 ⟨60, some 10⟩ 20 60
    "Perplexity rate limit exceeded. Please wait before retrying."
    (by norm_num [_check_rate_limit, truthyTime])

/-! ## C8: only the Perplexity adapter consults a response cache -/

/-- Upstream network calls made by two consecutive identical SerpAPI
searches on the same service instance. -/
def serpTwiceCalls (svc : SerpAPISearchService) (query : String) (n : Int)
    (st : String) (h1 h2 : SerpHttp) : Nat :=
  (svc.search query n st h1).1 + (svc.search query n st h2).1

/-- C8 counterexample: the web-search (SerpAPI) adapter holds no response
cache and never consults one — two consecutive identical calls both reach
the network (two upstream calls in total), where the claim would have the
second call answered from cache with no network call and no rate-counter
touch. -/
theorem claim_C8_counterexample :
    serpTwiceCalls { api_key := "serp-key", engine := "google", timeout := 12 }
      "climate policy" 3 "auto"
      (SerpHttp.resp 200 (some { organic_results := [], answer_box_answer := none,
                                 total_time_taken := 0 }))
      (SerpHttp.resp 200 (some { organic_results := [], answer_box_answer := none,
                                 total_time_taken := 0 })) = 2 := by
  decide

/-- C8 as amended: only the retrieval-answer (Perplexity) adapter consults
a response cache before its network call — keyed by the md5 pre-image
`{provider prefix, function name, query, requested count, search type}` —
and on a hit returns the cached payload with zero network calls and the
service state (including the rate-limit counter and window stamp)
unchanged. The suggestion (OpenAI) and web-search (SerpAPI) adapters have
no response cache: every invocation passing their availability check makes
exactly one upstream network call. -/
theorem claim_C8_amended :
    (∀ (svc : PerplexitySearchService) (c : Cache) (v : SearchPayload)
        (query : String) (n : Int) (st : String) (now el : ℚ)
        (http : PerplexityHttp),
      svc.cache = some c →
      cacheGet c ⟨"perplexity", "search", query, n, st⟩ = some v →
      PerplexitySearchService.search svc query n st now el http =
        (svc, 0, Except.ok v)) ∧
    (∀ (svc : SerpAPISearchService) (query : String) (n : Int) (st : String)
        (http : SerpHttp),
      ¬(svc.api_key = "") →
      (SerpAPISearchService.search svc query n st http).1 = 1) ∧
    (∀ (key : Option String) (sugg : List String) (query : String) (n : Int)
        (st : String),
      truthyS key = true →
      (OpenAISearchProvider.search key sugg query n st).1 = 1) := by
  refine ⟨?_, ?_, ?_⟩
  · intro svc c v query n st now el http hc hget
    simp only [PerplexitySearchService.search, hc, hget]
  · intro svc query n st http hkey
    cases http with
    | timeout => simp [SerpAPISearchService.search, hkey]
    | connError => simp [SerpAPISearchService.search, hkey]
    | resp status body =>
        by_cases c1 : status = 429
        · simp [SerpAPISearchService.search, hkey, c1]
        · by_cases c2 : status = 401
          · simp [SerpAPISearchService.search, hkey, c1, c2]
          · by_cases c3 : 400 ≤ status
            · simp [SerpAPISearchService.search, hkey, c1, c2, c3]
            · cases body <;> simp [SerpAPISearchService.search, hkey, c1, c2, c3]
  · intro key sugg query n st hkey
    by_cases hs : sugg = [] <;>
      simp [OpenAISearchProvider.search, hkey, hs]

/-- Witness for the amended C8: a Perplexity cache hit returns the stored
payload, makes no network call and leaves the rate counter untouched. -/
theorem claim_C8_amended_witness :
    PerplexitySearchService.search
      { api_key := "pplx-key",
        cache := some [(⟨"perplexity", "search", "climate policy", 5, "auto"⟩, demoPayload)],
        base_url := "https://api.perplexity.ai", default_model := "sonar-pro",
        timeout := 30, request_count := 2, last_request_time := some 10 }
      "climate policy" 5 "auto" 100 1 PerplexityHttp.timeout =
    ({ api_key := "pplx-key",
       cache := some [(⟨"perplexity", "search", "climate policy", 5, "auto"⟩, demoPayload)],
       base_url := "https://api.perplexity.ai", default_model := "sonar-pro",
       timeout := 30, request_count := 2, last_request_time := some 10 },
      0, Except.ok demoPayload) :=
  claim_C8_amended.1 _
    [(⟨"perplexity", "search", "climate policy", 5, "auto"⟩, demoPayload)] demoPayload
    "climate policy" 5 "auto" 100 1 PerplexityHttp.timeout rfl (by decide)

/-! ## C2: total_results bookkeeping and requested-count bound, every path -/

/-- A Python slice never yields more than the (non-negative) requested
number of elements. -/
theorem pyTake_length_le_int (n : Int) (hn : 0 ≤ n) (xs : List α) :
    ((pyTake n xs).length : Int) ≤ n := by
  rw [pyTake, if_pos hn, List.length_take]
  omega

/-- The citation mapper never produces more items than it consumes. -/
theorem buildCitationResults_length_le (i : Nat) (xs : List CitationItem) :
    (buildCitationResults i xs).length ≤ xs.length := by
  induction xs generalizing i with
  | nil => simp [buildCitationResults]
  | cons x rest ih =>
      cases x with
      | nondict =>
          simp only [buildCitationResults, List.length_cons]
          have := ih (i + 1)
          omega
      | dict cid uuid title url snippet content text author published_at date score src =>
          simp only [buildCitationResults, List.length_cons]
          have := ih (i + 1)
          omega

/-- The organic-results mapper is one-to-one on list length. -/
theorem buildSerpResults_length (i : Nat) (xs : List SerpOrganic) :
    (buildSerpResults i xs).length = xs.length := by
  induction xs generalizing i with
  | nil => simp [buildSerpResults]
  | cons x rest ih => simp [buildSerpResults, ih (i + 1)]

/-- The suggestion mapper is one-to-one on list length. -/
theorem buildOpenAIResults_length (i : Nat) (xs : List String) :
    (buildOpenAIResults i xs).length = xs.length := by
  induction xs generalizing i with
  | nil => simp [buildOpenAIResults]
  | cons x rest ih => simp [buildOpenAIResults, ih (i + 1)]

/-- The fallback synthesizer produces exactly `max(1, min(num_results, 5))`
placeholder items. -/
theorem build_fallback_length (q : String) (n : Int) (r : String)
    (f : Nat → String) :
    (build_fallback_search_results q n r f).results.length =
      (max 1 (min n 5)).toNat := by
  simp [build_fallback_search_results]

/-- Every payload stored in the service cache respects its own key: its
`total_results` matches and its length is within the key's requested count. -/
def CacheOk (svc : PerplexitySearchService) : Prop :=
  ∀ c, svc.cache = some c → ∀ e ∈ c,
    e.2.total_results = e.2.results.length ∧
    (e.2.results.length : Int) ≤ e.1.num_results

/-- A cache hit comes from a stored entry with the looked-up key. -/
theorem cacheGet_mem (c : Cache) (k : CacheKey) (v : SearchPayload)
    (h : cacheGet c k = some v) : ∃ e ∈ c, e.1 = k ∧ e.2 = v := by
  unfold cacheGet at h
  cases hf : c.find? (fun e => e.1 = k) with
  | none => rw [hf] at h; simp at h
  | some e =>
      rw [hf] at h
      simp at h
      refine ⟨e, List.mem_of_find?_eq_some hf, ?_, h⟩
      have := List.find?_some hf
      simpa using this

/-- The Perplexity citation pipeline stays within the requested count. -/
theorem citationPayloadBound (n : Int) (h1 : 1 ≤ n) (cits : List CitationItem) :
    ((buildCitationResults 0 (pyTake (max 1 (min n 20)) cits)).length : Int) ≤ n := by
  have hA := buildCitationResults_length_le 0 (pyTake (max 1 (min n 20)) cits)
  have hB := pyTake_length_le_int (max 1 (min n 20)) (by omega) cits
  omega

/-- The SerpAPI organic-results pipeline stays within the requested count. -/
theorem serpPayloadBound (n : Int) (h1 : 1 ≤ n) (xs : List SerpOrganic) :
    ((buildSerpResults 0 (pyTake n xs)).length : Int) ≤ n := by
  have hA := buildSerpResults_length 0 (pyTake n xs)
  have hB := pyTake_length_le_int n (by omega) xs
  omega

/-- Whenever the post-cache body of the Perplexity search succeeds, the
payload counts its results and stays within the requested count. -/
theorem searchInner_ok_bounds (svc : PerplexitySearchService) (query : String)
    (n : Int) (st : String) (now el : ℚ) (http : PerplexityHttp)
    (p : SearchPayload) (h1 : 1 ≤ n)
    (h : (svc.searchInner query n st now el http).2.2 = Except.ok p) :
    p.total_results = p.results.length ∧ (p.results.length : Int) ≤ n := by
  unfold PerplexitySearchService.searchInner at h
  repeat' split at h
  all_goals
    first
      | exact Except.noConfusion h
      | (injection h with h
         subst h
         exact ⟨rfl, citationPayloadBound n h1 _⟩)

/-- C2: for every non-empty query and requested count in `[1, MAX]`, each
search path — the OpenAI suggestion adapter, the Perplexity adapter (with a
well-formed cache), the SerpAPI adapter, and the fallback synthesizer —
yields a payload with `total_results` equal to the number of results and at
most `requested_count` results. -/
theorem claim_C2 (query : String) (n : Int) (hq : ¬(query = ""))
    (h1 : 1 ≤ n) (h2 : n ≤ MAX_SEARCH_RESULTS) :
    (∀ (key : Option String) (sugg : List String) (st : String)
        (p : SearchPayload),
      (OpenAISearchProvider.search key sugg query n st).2 = Except.ok p →
      p.total_results = p.results.length ∧ (p.results.length : Int) ≤ n) ∧
    (∀ (svc : PerplexitySearchService) (st : String) (now el : ℚ)
        (http : PerplexityHttp) (p : SearchPayload),
      CacheOk svc →
      (PerplexitySearchService.search svc query n st now el http).2.2 =
        Except.ok p →
      p.total_results = p.results.length ∧ (p.results.length : Int) ≤ n) ∧
    (∀ (svc : SerpAPISearchService) (st : String) (http : SerpHttp)
        (p : SearchPayload),
      (SerpAPISearchService.search svc query n st http).2 = Except.ok p →
      p.total_results = p.results.length ∧ (p.results.length : Int) ≤ n) ∧
    (∀ (reason : String) (isoFn : Nat → String),
      (build_fallback_search_results query n reason isoFn).total_results =
        (build_fallback_search_results query n reason isoFn).results.length ∧
      ((build_fallback_search_results query n reason isoFn).results.length : Int)
        ≤ n) := by
  refine ⟨?_, ?_, ?_, ?_⟩
  · intro key sugg st p h
    unfold OpenAISearchProvider.search at h
    by_cases hk : truthyS key = false
    · rw [if_pos hk] at h; simp at h
    · rw [if_neg hk] at h
      by_cases hs : sugg = []
      · rw [if_pos hs] at h; simp at h
      · rw [if_neg hs] at h
        simp only [Except.ok.injEq] at h
        subst h
        refine ⟨rfl, ?_⟩
        have hA := buildOpenAIResults_length 0 (pyTake n sugg)
        have hB := pyTake_length_le_int n (by omega) sugg
        simp only []
        omega
  · intro svc st now el http p hcache h
    unfold PerplexitySearchService.search at h
    split at h
    · exact searchInner_ok_bounds svc query n st now el http p h1 h
    · rename_i c hc
      cases hget : cacheGet c ⟨"perplexity", "search", query, n, st⟩ with
      | some v =>
          rw [hget] at h
          injection h with h
          subst h
          obtain ⟨e, hmem, hkey, hval⟩ := cacheGet_mem c _ _ hget
          have hb := hcache c hc e hmem
          rw [hkey, hval] at hb
          exact hb
      | none =>
          rw [hget] at h
          rcases hin : svc.searchInner query n st now el http with ⟨svc2, nn, res⟩
          rw [hin] at h
          cases res with
          | ok payload =>
              injection h with h
              subst h
              exact searchInner_ok_bounds svc query n st now el http payload h1
                (by rw [hin])
          | error e => exact Except.noConfusion h
  · intro svc st http p h
    unfold SerpAPISearchService.search at h
    repeat' split at h
    all_goals
      first
        | exact Except.noConfusion h
        | (injection h with h
           subst h
           exact ⟨rfl, serpPayloadBound n h1 _⟩)
  · intro reason isoFn
    refine ⟨rfl, ?_⟩
    rw [build_fallback_length]
    omega

/-- Witness for C2: the fallback path at `query = "climate policy"`,
`requested_count = 10`. -/
theorem claim_C2_witness :
    (build_fallback_search_results "climate policy" 10 "All providers unavailable"
        (fun _ => "2026-10-12T00:00:00Z")).total_results =
      (build_fallback_search_results "climate policy" 10 "All providers unavailable"
        (fun _ => "2026-10-12T00:00:00Z")).results.length ∧
    ((build_fallback_search_results "climate policy" 10 "All providers unavailable"
        (fun _ => "2026-10-12T00:00:00Z")).results.length : Int) ≤ 10 :=
  (claim_C2 "climate policy" 10 (by decide) (by decide) (by decide)).2.2.2
    "All providers unavailable" (fun _ => "2026-10-12T00:00:00Z")

/-! ## C5: fallback outcome shape and score schedule -/

/-- When every provider is skipped or fails with a classified error, the
loop exhausts the list and returns the fallback outcome built by the
configured builder. -/
theorem orchLoop_all_fail (fb : String → Int → String → SearchPayload)
    (q : String) (n : Int) (fr : Option String) :
    ∀ (ps : List Provider) (attempts : List String) (errors : List EngineError),
      (∀ p ∈ ps, p.available = false ∨
        ∃ m, p.searchResult = Except.error (SearchError.externalAPIError m)) →
      ∃ atts errs,
        orchLoop true (some fb) q n fr ps attempts errors =
          Except.ok
            { payload := fb q n (orchFallbackReason fr)
              engine_used := "offline-fallback"
              attempted_engines := atts
              engine_errors := errs
              is_fallback := true } := by
  intro ps
  induction ps with
  | nil =>
      intro attempts errors _
      exact ⟨attempts, errors, by simp [orchLoop]⟩
  | cons p rest ih =>
      intro attempts errors hall
      by_cases hav : p.available = false
      · rcases ih attempts errors (fun x hx => hall x (by simp [hx])) with ⟨atts, errs, heq⟩
        exact ⟨atts, errs, by rw [orchLoop, if_pos (by simp [hav])]; exact heq⟩
      · have havt : p.available = true := by
          cases hpa : p.available
          · exact absurd hpa hav
          · rfl
        rcases hall p (by simp) with hf | ⟨m, hm⟩
        · exact absurd hf hav
        · rcases ih (attempts ++ [p.name]) (errors ++ [⟨p.name, m⟩])
            (fun x hx => hall x (by simp [hx])) with ⟨atts, errs, heq⟩
          exact ⟨atts, errs, by rw [orchLoop, if_neg (by simp [havt]), hm]; exact heq⟩

/-- The i-th fallback placeholder carries score
`max(0.3, 1 - i * 0.12)`. -/
theorem build_fallback_score (q : String) (n : Int) (r : String)
    (f : Nat → String) (i : Nat)
    (hi : i < (build_fallback_search_results q n r f).results.length) :
    ((build_fallback_search_results q n r f).results.get ⟨i, hi⟩).score =
      some (max (3/10 : ℚ) (1 - (i : ℚ) * (12/100))) := by
  simp [build_fallback_search_results]

/-- The fallback score schedule is non-increasing in the position. -/
theorem fallbackScore_antitone (i j : Nat) (hij : i ≤ j) :
    max (3/10 : ℚ) (1 - (j : ℚ) * (12/100)) ≤
      max (3/10 : ℚ) (1 - (i : ℚ) * (12/100)) := by
  apply max_le_max le_rfl
  have hc : (i : ℚ) ≤ (j : ℚ) := by exact_mod_cast hij
  have := mul_le_mul_of_nonneg_right hc (by norm_num : (0 : ℚ) ≤ 12/100)
  linarith

/-- C5: when every provider is unavailable or fails with a classified error
and fallback is enabled with the research-endpoint builder, the orchestrator
returns a fallback outcome with exactly `min(max(requested_count, 1), 5)`
placeholder results (hence between 1 and 5), whose scores follow
`max(0.3, 1 - position * 0.12)` — starting at 1.0, dropping 0.12 per
position, floored at 0.3 — and are non-increasing by position. -/
theorem claim_C5 (o : SearchOrchestrator) (query_text query : String) (n : Int)
    (fr : Option String) (isoFn : Nat → String)
    (hfe : o.fallback_enabled = true)
    (hfb : o.fallback_builder =
      some (fun _q req reason => build_fallback_search_results query_text req reason isoFn))
    (hall : ∀ p ∈ o.providers, p.available = false ∨
      ∃ m, p.searchResult = Except.error (SearchError.externalAPIError m)) :
    ∃ out, o.search query n fr = Except.ok out ∧
      out.is_fallback = true ∧
      out.payload.fallback = true ∧
      out.payload.results.length = (min (max n 1) 5).toNat ∧
      1 ≤ out.payload.results.length ∧ out.payload.results.length ≤ 5 ∧
      (∀ i (hi : i < out.payload.results.length),
        (out.payload.results.get ⟨i, hi⟩).score =
          some (max (3/10 : ℚ) (1 - (i : ℚ) * (12/100)))) ∧
      (∀ i j (hi : i < out.payload.results.length)
          (hj : j < out.payload.results.length), i ≤ j →
        (out.payload.results.get ⟨j, hj⟩).score.getD 0 ≤
          (out.payload.results.get ⟨i, hi⟩).score.getD 0) := by
  obtain ⟨atts, errs, heq⟩ := orchLoop_all_fail
    (fun _q req reason => build_fallback_search_results query_text req reason isoFn)
    query n fr o.providers [] [] hall
  have hcl : max 1 (min n 5) = min (max n 1) 5 := by omega
  refine ⟨{ payload := build_fallback_search_results query_text n (orchFallbackReason fr) isoFn
            engine_used := "offline-fallback"
            attempted_engines := atts
            engine_errors := errs
            is_fallback := true }, ?_, rfl, rfl, ?_, ?_, ?_, ?_, ?_⟩
  · rw [SearchOrchestrator.search, hfe, hfb]
    exact heq
  · rw [build_fallback_length, hcl]
  · rw [build_fallback_length]
    omega
  · rw [build_fallback_length]
    omega
  · intro i hi
    exact build_fallback_score query_text n (orchFallbackReason fr) isoFn i hi
  · intro i j hi hj hij
    rw [build_fallback_score query_text n (orchFallbackReason fr) isoFn j hj,
      build_fallback_score query_text n (orchFallbackReason fr) isoFn i hi]
    simpa using fallbackScore_antitone i j hij

/-- Witness for C5: one failing provider, fallback builder wired as in the
research endpoint, requested count 10. -/
theorem claim_C5_witness :
    ∃ out,
      SearchOrchestrator.search
        { providers := [demoFailProvider], fallback_enabled := true,
          fallback_builder := some (fun _q req reason =>
            build_fallback_search_results "climate policy" req reason (fun _ => "stamp")) }
        "climate policy" 10 none = Except.ok out ∧
      out.is_fallback = true ∧
      out.payload.fallback = true ∧
      out.payload.results.length = (min (max (10 : Int) 1) 5).toNat ∧
      1 ≤ out.payload.results.length ∧ out.payload.results.length ≤ 5 ∧
      (∀ i (hi : i < out.payload.results.length),
        (out.payload.results.get ⟨i, hi⟩).score =
          some (max (3/10 : ℚ) (1 - (i : ℚ) * (12/100)))) ∧
      (∀ i j (hi : i < out.payload.results.length)
          (hj : j < out.payload.results.length), i ≤ j →
        (out.payload.results.get ⟨j, hj⟩).score.getD 0 ≤
          (out.payload.results.get ⟨i, hi⟩).score.getD 0) :=
  claim_C5 _ "climate policy" "climate policy" 10 none (fun _ => "stamp") rfl rfl
    (by
      intro p hp
      simp only [List.mem_cons, List.not_mem_nil, or_false] at hp
      subst hp
      right
      exact ⟨_, rfl⟩)
